import Mathlib

/-!
Shallow embedding of the RewardArena simulation core: the four reward
functions (`src/utils/rewards.js`), the `SimulationEngine` episode state
machine (`src/utils/simulation.js`), and the reward-guided movement policy
`updateAgent` (`SimulationCanvas.jsx`).  JavaScript numbers are modelled as
real numbers; the Matter.js physics integrator is an external collaborator
and is modelled as an explicit function parameter `phys` mapping the agent's
position and velocity to the post-advance position and velocity.
-/

noncomputable section

/-- A 2D pixel-space position or vector, `{x, y}` in the source. -/
@[ext]
structure Pos where
  x : ℝ
  y : ℝ

/-- Euclidean distance, `Math.sqrt((p.x-g.x)**2 + (p.y-g.y)**2)`, the formula
repeated throughout `rewards.js` and `SimulationEngine.getDistance`. -/
def distance (p g : Pos) : ℝ :=
  Real.sqrt ((p.x - g.x) ^ 2 + (p.y - g.y) ^ 2)

/-- Squared length of a 2D vector, `v.x*v.x + v.y*v.y`. -/
def sqNorm (v : Pos) : ℝ := v.x ^ 2 + v.y ^ 2

/-- `calculateSparseReward` from `rewards.js`. -/
def calculateSparseReward (agentPos goalPos : Pos) (threshold : ℝ) : ℝ :=
  if distance agentPos goalPos < threshold then 1.0 else 0.0

/-- `calculateDistanceShapingReward` from `rewards.js`:
potential `Φ(s) = -distance(s, goal)`, reward `base + γ·Φ(s') - Φ(s)`. -/
def calculateDistanceShapingReward (currentPos nextPos goalPos : Pos)
    (gamma baseReward : ℝ) : ℝ :=
  let phiCurrent := -(distance currentPos goalPos)
  let phiNext := -(distance nextPos goalPos)
  let shapingSignal := gamma * phiNext - phiCurrent
  baseReward + shapingSignal

/-- `calculatePRMReward` from `rewards.js`; the nullable JS `initialDistance`
is an `Option ℝ` and the `=== null || === 0` guard returns `0`. -/
def calculatePRMReward (currentPos goalPos : Pos) (initialDistance : Option ℝ)
    (learningRate : ℝ) : ℝ :=
  let dist := distance currentPos goalPos
  match initialDistance with
  | none => 0
  | some init =>
    if init = 0 then 0
    else learningRate * max 0 ((init - dist) / init)

/-- `calculateSemanticReward` from `rewards.js`: Gaussian kernel with the
fixed pixel-space `sigma = 100`; `width`/`height` are accepted but unused,
as in the source. -/
def calculateSemanticReward (agentPos goalPos : Pos) (width height : ℝ) : ℝ :=
  let dist := distance agentPos goalPos
  let sigma : ℝ := 100
  Real.exp (-(dist ^ 2) / (2 * sigma ^ 2))

/-- The mutable state of `SimulationEngine` (second, continuous-reward
generation in `simulation.js`): agent body position/velocity, the stored
velocity command, the bounded position history, success threshold `35`,
nullable distance trackers and the success counter. -/
structure SimulationEngine where
  width : ℝ
  height : ℝ
  agentPos : Pos
  agentVel : Pos
  agentVelocity : Pos
  positionHistory : List Pos
  maxHistoryLength : ℕ
  successThreshold : ℝ
  previousDistance : Option ℝ
  initialDistance : Option ℝ
  successCount : ℕ
  goalPos : Pos

namespace SimulationEngine

/-- The `SimulationEngine` constructor: agent spawns at `(width/4, height/2)`,
goal at `(width*0.75, height/2)`, threshold `35`, empty history, null
distance trackers, zero successes. -/
def create (width height : ℝ) : SimulationEngine where
  width := width
  height := height
  agentPos := ⟨width / 4, height / 2⟩
  agentVel := ⟨0, 0⟩
  agentVelocity := ⟨0, 0⟩
  positionHistory := []
  maxHistoryLength := 10
  successThreshold := 35
  previousDistance := none
  initialDistance := none
  successCount := 0
  goalPos := ⟨width * 0.75, height / 2⟩

/-- `getDistance()`. -/
def getDistance (s : SimulationEngine) : ℝ := distance s.agentPos s.goalPos

/-- `isSuccess()`: strict comparison `distance < successThreshold`. -/
def isSuccess (s : SimulationEngine) : Prop :=
  s.getDistance < s.successThreshold

instance isSuccessDecidable (s : SimulationEngine) : Decidable s.isSuccess :=
  Real.decidableLT _ _

/-- `reset()`: agent back to spawn, zero velocity, history cleared,
distance trackers nulled; `successCount` is untouched. -/
def reset (s : SimulationEngine) : SimulationEngine :=
  { s with
    agentPos := ⟨s.width / 4, s.height / 2⟩
    agentVel := ⟨0, 0⟩
    agentVelocity := ⟨0, 0⟩
    positionHistory := []
    previousDistance := none
    initialDistance := none }

/-- `getReward(type, gamma, learningRate, width, height)`: computes the
regime reward at the current state and, as in the source, first defaults
`previousDistance` to the current distance, initialises `initialDistance`
on first call, and stores the current distance into `previousDistance`.
Returns the reward together with the mutated state. -/
def getReward (s : SimulationEngine) (type : String)
    (gamma learningRate width height : ℝ) : ℝ × SimulationEngine :=
  let dist := s.getDistance
  let prevDist := match s.previousDistance with
    | some v => v
    | none => dist
  let initD := match s.initialDistance with
    | some v => v
    | none => dist
  let s' := { s with initialDistance := some initD, previousDistance := some dist }
  let reward : ℝ :=
    if type = "sparse" then
      if dist < s.successThreshold then 1.0 else 0.0
    else if type = "shaping" then
      gamma * (-dist) - (-prevDist)
    else if type = "prm" then
      learningRate * max 0 ((initD - dist) / initD)
    else if type = "semantic" then
      Real.exp (-(dist ^ 2) / (2 * (100 : ℝ) ^ 2))
    else 0
  (reward, s')

/-- `step(rewardType, gamma, learningRate, width, height)`: evaluate the
reward at the pre-move state (mutating the distance trackers), check
success — on success increment `successCount`, reset, and return
`{reward: 1.0, isDone: true}` — otherwise apply the stored velocity command
to the body, advance the external physics collaborator `phys`, push the new
position onto the history (evicting the oldest beyond capacity), and return
`{reward, isDone: false}`. -/
def step (s : SimulationEngine) (rewardType : String)
    (gamma learningRate width height : ℝ) (phys : Pos → Pos → Pos × Pos) :
    ℝ × Bool × SimulationEngine :=
  let r := s.getReward rewardType gamma learningRate width height
  let reward := r.1
  let s1 := r.2
  if s1.isSuccess then
    let s2 := { s1 with successCount := s1.successCount + 1 }
    (1.0, true, s2.reset)
  else
    let s2 := { s1 with agentVel := s1.agentVelocity }
    let adv := phys s2.agentPos s2.agentVel
    let s3 := { s2 with agentPos := adv.1, agentVel := adv.2 }
    let hist := s3.positionHistory ++ [s3.agentPos]
    let hist2 := if s3.maxHistoryLength < hist.length then hist.drop 1 else hist
    (reward, false, { s3 with positionHistory := hist2 })

end SimulationEngine

/-! The reward-guided policy `updateAgent` from `SimulationCanvas.jsx`. -/

/-- The fixed `sampleDistance = 10` of the policy's gradient estimator. -/
def sampleDistance : ℝ := 10

/-- The eight fixed candidate offsets sampled by `updateAgent`: the four
axis-aligned directions and the four diagonals scaled by `0.707`. -/
def samples : List Pos :=
  [⟨sampleDistance, 0⟩, ⟨-sampleDistance, 0⟩,
   ⟨0, sampleDistance⟩, ⟨0, -sampleDistance⟩,
   ⟨sampleDistance * 0.707, sampleDistance * 0.707⟩,
   ⟨-sampleDistance * 0.707, sampleDistance * 0.707⟩,
   ⟨sampleDistance * 0.707, -sampleDistance * 0.707⟩,
   ⟨-sampleDistance * 0.707, -sampleDistance * 0.707⟩]

/-- The body of the policy's sampling loop for one candidate offset: clamp the
test position to the canvas, then evaluate the regime's expected reward at it
(the `switch (rewardType)` inside `updateAgent`; an unrecognised regime leaves
`expectedReward = 0`).  For `prm`, `sim.initialDistance || distance` falls
back to the current distance when the stored value is null or `0`. -/
def expectedRewardAt (rewardType : String) (gamma learningRate width height : ℝ)
    (agentPos goalPos : Pos) (successThreshold : ℝ)
    (initialDistance : Option ℝ) (sample : Pos) : ℝ :=
  let dist := distance agentPos goalPos
  let testPos : Pos :=
    ⟨max 15 (min (width - 15) (agentPos.x + sample.x)),
     max 15 (min (height - 15) (agentPos.y + sample.y))⟩
  let testDistance := distance testPos goalPos
  if rewardType = "sparse" then
    calculateSparseReward testPos goalPos successThreshold
  else if rewardType = "shaping" then
    gamma * (-testDistance) - (-dist)
  else if rewardType = "prm" then
    let initialDist := match initialDistance with
      | some v => if v = 0 then dist else v
      | none => dist
    calculatePRMReward testPos goalPos (some initialDist) learningRate
  else if rewardType = "semantic" then
    calculateSemanticReward testPos goalPos width height
  else 0

/-- One iteration of the policy's candidate loop: keep the running best,
replacing it when the candidate's expected reward is strictly greater. -/
def pickStep (f : Pos → ℝ) (acc : Pos × ℝ) (sample : Pos) : Pos × ℝ :=
  let er := f sample
  if er > acc.2 then (sample, er) else acc

/-- Normalise a 2D vector to unit length when its length is positive,
otherwise leave it unchanged (the `if (length > 0)` guards in the source). -/
def normalizePos (v : Pos) : Pos :=
  let L := Real.sqrt (sqNorm v)
  if 0 < L then ⟨v.x / L, v.y / L⟩ else v

/-- The policy's direction selection: fold the candidate loop starting from
`bestDirection = {0,0}`, `maxExpectedReward = currentReward`; normalise the
winner, or if no candidate won (zero length) fall back to the straight-line
direction toward the goal (normalised when the distance is positive). -/
def bestDirectionOf (rewardType : String) (gamma learningRate width height : ℝ)
    (agentPos goalPos : Pos) (successThreshold : ℝ)
    (initialDistance : Option ℝ) (currentReward : ℝ) : Pos :=
  let f := expectedRewardAt rewardType gamma learningRate width height
    agentPos goalPos successThreshold initialDistance
  let best := samples.foldl (pickStep f) ((⟨0, 0⟩ : Pos), currentReward)
  let bd := best.1
  let dirLength := Real.sqrt (sqNorm bd)
  if 0 < dirLength then ⟨bd.x / dirLength, bd.y / dirLength⟩
  else
    let dx := goalPos.x - agentPos.x
    let dy := goalPos.y - agentPos.y
    let d := Real.sqrt (dx ^ 2 + dy ^ 2)
    if 0 < d then ⟨dx / d, dy / d⟩ else bd

/-- Momentum blend: `momentum·decay + direction·(1-decay)` with `decay = 0.7`. -/
def blendMomentum (momentum bd : Pos) : Pos :=
  ⟨momentum.x * 0.7 + bd.x * (1 - 0.7), momentum.y * 0.7 + bd.y * (1 - 0.7)⟩

/-- Final blend: `direction·(1-w) + momentum·w` with `w = 0.3`. -/
def finalDir (bd m : Pos) : Pos :=
  ⟨bd.x * (1 - 0.3) + m.x * 0.3, bd.y * (1 - 0.3) + m.y * 0.3⟩

/-- `updateAgent` from `SimulationCanvas.jsx`: when within the success
threshold emit zero velocity and zero the momentum; otherwise select a
direction by reward sampling, blend with (re-normalised) momentum, normalise,
and emit it scaled by `min(4, max(1.5, distance * 0.015))`.  Returns the
emitted velocity together with the updated momentum. -/
def updateAgent (rewardType : String) (gamma learningRate width height : ℝ)
    (agentPos goalPos : Pos) (successThreshold : ℝ)
    (initialDistance : Option ℝ) (momentum : Pos) (currentReward : ℝ) :
    Pos × Pos :=
  let dist := distance agentPos goalPos
  if dist ≤ successThreshold then (⟨0, 0⟩, ⟨0, 0⟩)
  else
    let bd2 := bestDirectionOf rewardType gamma learningRate width height
      agentPos goalPos successThreshold initialDistance currentReward
    let m2 := normalizePos (blendMomentum momentum bd2)
    let f2 := normalizePos (finalDir bd2 m2)
    let baseSpeed := min 4 (max 1.5 (dist * 0.015))
    (⟨f2.x * baseSpeed, f2.y * baseSpeed⟩, m2)

/-- A concrete physics collaborator used for counterexample evaluation:
advance the position by one velocity unit, keep the velocity. -/
def physShift : Pos → Pos → Pos × Pos :=
  fun p v => (⟨p.x + v.x, p.y + v.y⟩, v)

/-- Concrete engine state for evaluating a `step` tick: fresh 400×300 engine
with the agent moved to `(100,150)` and a stored velocity command `(6,0)`. -/
def c4State : SimulationEngine :=
  { SimulationEngine.create 400 300 with
    agentPos := ⟨100, 150⟩, agentVelocity := ⟨6, 0⟩ }

/-- The result of one `step` tick from `c4State` under `physShift`. -/
def c4Res : ℝ × Bool × SimulationEngine :=
  c4State.step "sparse" 0.9 0.1 400 300 physShift

end

/-! ### Basic facts about `distance` and `sqNorm` -/

lemma distance_nonneg (p g : Pos) : 0 ≤ distance p g :=
  Real.sqrt_nonneg _

lemma distance_eq_zero_iff (p g : Pos) : distance p g = 0 ↔ p = g := by
  unfold distance
  rw [Real.sqrt_eq_zero (by positivity)]
  constructor
  · intro h
    have hx : (p.x - g.x) ^ 2 = 0 := by nlinarith [sq_nonneg (p.x - g.x), sq_nonneg (p.y - g.y)]
    have hy : (p.y - g.y) ^ 2 = 0 := by nlinarith [sq_nonneg (p.x - g.x), sq_nonneg (p.y - g.y)]
    have hx' : p.x = g.x := by nlinarith [sq_nonneg (p.x - g.x)]
    have hy' : p.y = g.y := by nlinarith [sq_nonneg (p.y - g.y)]
    exact Pos.ext hx' hy'
  · intro h; subst h; ring

lemma distance_horiz (x1 x2 y : ℝ) (h : x1 ≤ x2) :
    distance ⟨x1, y⟩ ⟨x2, y⟩ = x2 - x1 := by
  unfold distance
  rw [show (x1 - x2) ^ 2 + (y - y) ^ 2 = (x2 - x1) ^ 2 by ring]
  exact Real.sqrt_sq (by linarith)

lemma sqNorm_nonneg (v : Pos) : 0 ≤ sqNorm v := by
  unfold sqNorm; positivity

lemma sqNorm_eq_zero_iff (v : Pos) : sqNorm v = 0 ↔ v = ⟨0, 0⟩ := by
  unfold sqNorm
  constructor
  · intro h
    have hx : v.x = 0 := by nlinarith [sq_nonneg v.x, sq_nonneg v.y]
    have hy : v.y = 0 := by nlinarith [sq_nonneg v.x, sq_nonneg v.y]
    exact Pos.ext hx hy
  · intro h; rw [h]; norm_num

/-! ### Claim C2 -/

/-- Claim C2: with `γ = 1` and `baseReward = 0`, the shaping rewards of the
consecutive pairs of any trajectory sum to
`Φ(sₙ) - Φ(s₀) = distance(s₀, g) - distance(sₙ, g)`. -/
theorem shaping_reward_telescopes (traj : ℕ → Pos) (g : Pos) (n : ℕ) :
    ∑ i in Finset.range n,
        calculateDistanceShapingReward (traj i) (traj (i + 1)) g 1 0
      = distance (traj 0) g - distance (traj n) g := by
  induction n with
  | zero => simp
  | succ k ih =>
    rw [Finset.sum_range_succ, ih]
    simp only [calculateDistanceShapingReward]
    ring

/-! ### Claim C6 -/

/-- Claim C6: the sparse reward is exactly `1.0` when
`distance(agent, goal) < threshold` and exactly `0.0` otherwise (so the
boundary `distance = threshold` yields `0.0` and no other value occurs);
the engine's `sparse` case computes the same function; and the two concrete
scenarios from the spec evaluate to `0.0` and `1.0` respectively. -/
theorem sparse_reward_characterisation (p g : Pos) (θ : ℝ) :
    (distance p g < θ → calculateSparseReward p g θ = 1.0) ∧
    (¬ distance p g < θ → calculateSparseReward p g θ = 0.0) ∧
    (distance p g = θ → calculateSparseReward p g θ = 0.0) ∧
    (calculateSparseReward p g θ = 0.0 ∨ calculateSparseReward p g θ = 1.0) ∧
    (∀ (s : SimulationEngine) (γ lr w h : ℝ),
      (s.getReward "sparse" γ lr w h).1
        = calculateSparseReward s.agentPos s.goalPos s.successThreshold) ∧
    calculateSparseReward ⟨100, 150⟩ ⟨300, 150⟩ 35 = 0.0 ∧
    calculateSparseReward ⟨280, 150⟩ ⟨300, 150⟩ 35 = 1.0 := by
  have h100 : distance ⟨100, 150⟩ ⟨300, 150⟩ = 200 := by
    have h := distance_horiz 100 300 150 (by norm_num); norm_num at h; exact h
  have h280 : distance ⟨280, 150⟩ ⟨300, 150⟩ = 20 := by
    have h := distance_horiz 280 300 150 (by norm_num); norm_num at h; exact h
  refine ⟨?_, ?_, ?_, ?_, ?_, ?_, ?_⟩
  · intro h; simp [calculateSparseReward, h]
  · intro h; simp [calculateSparseReward, h]
  · intro h; simp [calculateSparseReward, h]
  · by_cases h : distance p g < θ
    · right; simp [calculateSparseReward, h]
    · left; simp [calculateSparseReward, h]
  · intro s γ lr w h
    simp [SimulationEngine.getReward, calculateSparseReward, SimulationEngine.getDistance]
  · simp only [calculateSparseReward, h100]; norm_num
  · simp only [calculateSparseReward, h280]; norm_num

/-- Witness for C6: the theorem applied at the two concrete spec scenarios
and at the exact boundary `distance = threshold`. -/
theorem sparse_reward_characterisation_witness :
    calculateSparseReward ⟨100, 150⟩ ⟨300, 150⟩ 35 = 0.0 ∧
    calculateSparseReward ⟨280, 150⟩ ⟨300, 150⟩ 35 = 1.0 ∧
    calculateSparseReward ⟨265, 150⟩ ⟨300, 150⟩ 35 = 0.0 := by
  have h100 : distance ⟨100, 150⟩ ⟨300, 150⟩ = 200 := by
    have h := distance_horiz 100 300 150 (by norm_num); norm_num at h; exact h
  have h280 : distance ⟨280, 150⟩ ⟨300, 150⟩ = 20 := by
    have h := distance_horiz 280 300 150 (by norm_num); norm_num at h; exact h
  have h265 : distance ⟨265, 150⟩ ⟨300, 150⟩ = 35 := by
    have h := distance_horiz 265 300 150 (by norm_num); norm_num at h; exact h
  refine ⟨?_, ?_, ?_⟩
  · exact (sparse_reward_characterisation ⟨100, 150⟩ ⟨300, 150⟩ 35).2.1
      (by rw [h100]; norm_num)
  · exact (sparse_reward_characterisation ⟨280, 150⟩ ⟨300, 150⟩ 35).1
      (by rw [h280]; norm_num)
  · exact (sparse_reward_characterisation ⟨265, 150⟩ ⟨300, 150⟩ 35).2.2.1 h265


/-! ### Claim C7 -/

lemma calculateSemanticReward_eq (p g : Pos) (w h : ℝ) :
    calculateSemanticReward p g w h
      = Real.exp (-(distance p g ^ 2) / (2 * 100 ^ 2)) := by
  simp [calculateSemanticReward]

/-- Claim C7: the semantic reward equals `exp(-d²/(2·100²))` with fixed
`σ = 100`; it lies in `(0, 1]`, equals `1` exactly when agent and goal
coincide, is strictly decreasing in distance, the engine's `semantic` case
computes the same formula, and at `distance = 100` it equals `exp(-0.5)`. -/
theorem semantic_reward_characterisation (p g : Pos) (w h : ℝ) :
    calculateSemanticReward p g w h
      = Real.exp (-(distance p g ^ 2) / (2 * 100 ^ 2)) ∧
    0 < calculateSemanticReward p g w h ∧
    calculateSemanticReward p g w h ≤ 1 ∧
    (calculateSemanticReward p g w h = 1 ↔ p = g) ∧
    (∀ p2 : Pos, distance p g < distance p2 g →
      calculateSemanticReward p2 g w h < calculateSemanticReward p g w h) ∧
    (∀ (s : SimulationEngine) (γ lr : ℝ),
      (s.getReward "semantic" γ lr w h).1
        = Real.exp (-(s.getDistance ^ 2) / (2 * 100 ^ 2))) ∧
    (distance p g = 100 → calculateSemanticReward p g w h = Real.exp (-0.5)) := by
  refine ⟨calculateSemanticReward_eq p g w h, ?_, ?_, ?_, ?_, ?_, ?_⟩
  · rw [calculateSemanticReward_eq]; exact Real.exp_pos _
  · rw [calculateSemanticReward_eq, Real.exp_le_one_iff]
    have h1 := sq_nonneg (distance p g)
    have h2 : -(distance p g ^ 2) ≤ 0 := by linarith
    exact div_nonpos_of_nonpos_of_nonneg h2 (by norm_num)
  · rw [calculateSemanticReward_eq, Real.exp_eq_one_iff, div_eq_zero_iff,
      neg_eq_zero, pow_eq_zero_iff (two_ne_zero)]
    norm_num [distance_eq_zero_iff]
  · intro p2 hlt
    rw [calculateSemanticReward_eq, calculateSemanticReward_eq]
    rw [Real.exp_lt_exp]
    have h1 : distance p g ^ 2 < distance p2 g ^ 2 := by
      nlinarith [distance_nonneg p g, distance_nonneg p2 g]
    have h2 : (2 * (100 : ℝ) ^ 2) = 20000 := by norm_num
    rw [h2]
    linarith
  · intro s γ lr
    simp [SimulationEngine.getReward]
  · intro hd
    rw [calculateSemanticReward_eq, hd]
    norm_num

/-- Witness for C7: at distance `100` the semantic reward is `exp(-0.5)`,
and it is strictly smaller at distance `300` than at distance `100`. -/
theorem semantic_reward_characterisation_witness :
    calculateSemanticReward ⟨200, 150⟩ ⟨300, 150⟩ 400 300 = Real.exp (-0.5) ∧
    calculateSemanticReward ⟨0, 150⟩ ⟨300, 150⟩ 400 300
      < calculateSemanticReward ⟨200, 150⟩ ⟨300, 150⟩ 400 300 := by
  have h200 : distance ⟨200, 150⟩ ⟨300, 150⟩ = 100 := by
    have h := distance_horiz 200 300 150 (by norm_num); norm_num at h; exact h
  have h0 : distance ⟨0, 150⟩ ⟨300, 150⟩ = 300 := by
    have h := distance_horiz 0 300 150 (by norm_num); norm_num at h; exact h
  refine ⟨(semantic_reward_characterisation ⟨200, 150⟩ ⟨300, 150⟩ 400 300).2.2.2.2.2.2 h200,
    (semantic_reward_characterisation ⟨200, 150⟩ ⟨300, 150⟩ 400 300).2.2.2.2.1 ⟨0, 150⟩ ?_⟩
  rw [h200, h0]; norm_num

/-! ### Claim C3 -/

/-- Claim C3: the continuous progress-model reward lies in `[0, learningRate]`
(for nonnegative `learningRate` and stored `initialDistance`), equals `0`
whenever the current distance equals `initialDistance`, equals `0` whenever
`initialDistance` is null or `0`, and the engine's `prm` case likewise
returns `0` whenever the stored `initialDistance` is null or `0`. -/
theorem prm_reward_characterisation (p g : Pos) (initD : Option ℝ) (lr : ℝ)
    (hlr : 0 ≤ lr) (hinit : ∀ v, initD = some v → 0 ≤ v) :
    (0 ≤ calculatePRMReward p g initD lr ∧ calculatePRMReward p g initD lr ≤ lr) ∧
    (∀ v, initD = some v → distance p g = v → calculatePRMReward p g initD lr = 0) ∧
    (initD = none ∨ initD = some 0 → calculatePRMReward p g initD lr = 0) ∧
    (∀ (s : SimulationEngine) (γ w h : ℝ),
      s.initialDistance = none ∨ s.initialDistance = some 0 →
      (s.getReward "prm" γ lr w h).1 = 0) := by
  refine ⟨?_, ?_, ?_, ?_⟩
  · match hD : initD with
    | none => simp [calculatePRMReward]; exact hlr
    | some v =>
      by_cases hv : v = 0
      · subst hv; simp [calculatePRMReward]; exact hlr
      · have hv0 : 0 < v := lt_of_le_of_ne (hinit v rfl) (Ne.symm hv)
        simp only [calculatePRMReward, if_neg hv]
        constructor
        · exact mul_nonneg hlr (le_max_left 0 _)
        · have hq : (v - distance p g) / v ≤ 1 := by
            rw [div_le_one hv0]
            have := distance_nonneg p g
            linarith
          have hmax : max 0 ((v - distance p g) / v) ≤ 1 :=
            max_le (by norm_num) hq
          calc lr * max 0 ((v - distance p g) / v) ≤ lr * 1 :=
                mul_le_mul_of_nonneg_left hmax hlr
            _ = lr := mul_one lr
  · intro v hv hd
    subst hv
    by_cases h0 : v = 0
    · subst h0; simp [calculatePRMReward]
    · simp only [calculatePRMReward, if_neg h0, hd]
      simp
  · rintro (h | h) <;> subst h <;> simp [calculatePRMReward]
  · intro s γ w h hnull
    rcases hnull with h0 | h0 <;>
      simp [SimulationEngine.getReward, h0]

/-- Witness for C3: concrete spec scenario 4 — `initialDistance = 200`,
current `distance = 100`, `learningRate = 0.1` — satisfies the proved
bounds, and the guard cases return `0` on a fresh engine. -/
theorem prm_reward_characterisation_witness :
    (0 ≤ calculatePRMReward ⟨200, 150⟩ ⟨300, 150⟩ (some 200) 0.1 ∧
     calculatePRMReward ⟨200, 150⟩ ⟨300, 150⟩ (some 200) 0.1 ≤ 0.1) ∧
    calculatePRMReward ⟨100, 150⟩ ⟨300, 150⟩ (some 200) 0.1 = 0 ∧
    calculatePRMReward ⟨200, 150⟩ ⟨300, 150⟩ none 0.1 = 0 ∧
    ((SimulationEngine.create 400 300).getReward "prm" 0.9 0.1 400 300).1 = 0 := by
  have h1 := prm_reward_characterisation ⟨200, 150⟩ ⟨300, 150⟩ (some 200) 0.1
    (by norm_num) (by intro v hv; injection hv with hv; rw [← hv]; norm_num)
  have h2 := prm_reward_characterisation ⟨100, 150⟩ ⟨300, 150⟩ (some 200) 0.1
    (by norm_num) (by intro v hv; injection hv with hv; rw [← hv]; norm_num)
  have h3 := prm_reward_characterisation ⟨200, 150⟩ ⟨300, 150⟩ none 0.1
    (by norm_num) (by intro v hv; cases hv)
  have h100 : distance ⟨100, 150⟩ ⟨300, 150⟩ = 200 := by
    have h := distance_horiz 100 300 150 (by norm_num); norm_num at h; exact h
  refine ⟨h1.1, h2.2.1 200 rfl h100, h3.2.2.1 (Or.inl rfl), ?_⟩
  exact h3.2.2.2 (SimulationEngine.create 400 300) 0.9 400 300 (Or.inl rfl)

/-! ### Engine state lemmas -/

lemma getReward_state (s : SimulationEngine) (type : String) (γ lr w h : ℝ) :
    (s.getReward type γ lr w h).2
      = { s with initialDistance := some (s.initialDistance.getD s.getDistance),
                 previousDistance := some s.getDistance } := by
  cases hI : s.initialDistance <;>
    simp [SimulationEngine.getReward, hI]

/-! ### Claim C1 -/

/-- Claim C1: a tick that starts with `distance < successThreshold` increments
`successCount`, resets the agent to spawn with zero velocity, clears the
position history, nulls `initialDistance`/`previousDistance`, and returns
early with reward exactly `1.0` and `done = true` for every regime. -/
theorem step_success_transition (s : SimulationEngine) (type : String)
    (γ lr w h : ℝ) (phys : Pos → Pos → Pos × Pos)
    (hsucc : s.getDistance < s.successThreshold) :
    (s.step type γ lr w h phys).1 = 1.0 ∧
    (s.step type γ lr w h phys).2.1 = true ∧
    (s.step type γ lr w h phys).2.2.agentPos = ⟨s.width / 4, s.height / 2⟩ ∧
    (s.step type γ lr w h phys).2.2.agentVel = ⟨0, 0⟩ ∧
    (s.step type γ lr w h phys).2.2.agentVelocity = ⟨0, 0⟩ ∧
    (s.step type γ lr w h phys).2.2.positionHistory = [] ∧
    (s.step type γ lr w h phys).2.2.previousDistance = none ∧
    (s.step type γ lr w h phys).2.2.initialDistance = none ∧
    (s.step type γ lr w h phys).2.2.successCount = s.successCount + 1 := by
  have hstate := getReward_state s type γ lr w h
  have hsucc1 : ((s.getReward type γ lr w h).2).isSuccess := by
    rw [SimulationEngine.isSuccess, hstate]
    simpa [SimulationEngine.getDistance] using hsucc
  simp only [SimulationEngine.step]
  rw [if_pos hsucc1]
  simp [SimulationEngine.reset, hstate]

/-- Witness for C1: a concrete engine whose agent sits 10 px from the goal
(threshold 35) takes the terminal branch. -/
theorem step_success_transition_witness :
    (({ SimulationEngine.create 400 300 with agentPos := ⟨290, 150⟩ }
        : SimulationEngine).step "shaping" 0.9 0.1 400 300 physShift).1 = 1.0 ∧
    (({ SimulationEngine.create 400 300 with agentPos := ⟨290, 150⟩ }
        : SimulationEngine).step "shaping" 0.9 0.1 400 300 physShift).2.1 = true := by
  have hd : ({ SimulationEngine.create 400 300 with agentPos := ⟨290, 150⟩ }
      : SimulationEngine).getDistance < ({ SimulationEngine.create 400 300 with
      agentPos := ⟨290, 150⟩ } : SimulationEngine).successThreshold := by
    have h : distance ⟨290, 150⟩ ⟨300, 150⟩ = 10 := by
      have h := distance_horiz 290 300 150 (by norm_num); norm_num at h; exact h
    simp only [SimulationEngine.getDistance, SimulationEngine.create]
    norm_num [h]
  have h := step_success_transition
    ({ SimulationEngine.create 400 300 with agentPos := ⟨290, 150⟩ })
    "shaping" 0.9 0.1 400 300 physShift hd
  exact ⟨h.1, h.2.1⟩

/-! ### Claim C10 -/

/-- Claim C10: with `previousDistance` null — as after construction or a
reset — the engine's shaping reward defaults the previous distance to the
current distance `d`, so it equals `(1 - γ)·d`; for `γ < 1` and `d > 0`
this first-tick reward is strictly positive and strictly grows with `d`. -/
theorem shaping_first_tick (γ lr w h : ℝ) :
    (∀ w' h' : ℝ, (SimulationEngine.create w' h').previousDistance = none) ∧
    (∀ s : SimulationEngine, s.reset.previousDistance = none) ∧
    (∀ s : SimulationEngine, s.previousDistance = none →
      (s.getReward "shaping" γ lr w h).1 = (1 - γ) * s.getDistance) ∧
    (∀ s : SimulationEngine, s.previousDistance = none → γ < 1 →
      0 < s.getDistance → 0 < (s.getReward "shaping" γ lr w h).1) ∧
    (∀ s1 s2 : SimulationEngine, s1.previousDistance = none →
      s2.previousDistance = none → γ < 1 → s1.getDistance < s2.getDistance →
      (s1.getReward "shaping" γ lr w h).1 < (s2.getReward "shaping" γ lr w h).1) := by
  have hc : ∀ s : SimulationEngine, s.previousDistance = none →
      (s.getReward "shaping" γ lr w h).1 = (1 - γ) * s.getDistance := by
    intro s hprev
    simp [SimulationEngine.getReward, hprev]
    ring
  refine ⟨fun w' h' => rfl, fun s => rfl, hc, ?_, ?_⟩
  · intro s hprev hγ hd
    rw [hc s hprev]
    exact mul_pos (by linarith) hd
  · intro s1 s2 h1 h2 hγ hlt
    rw [hc s1 h1, hc s2 h2]
    exact mul_lt_mul_of_pos_left hlt (by linarith)

/-- Witness for C10: on a fresh 400×300 engine (distance 200) with `γ = 0.5`
the first shaping reward is `100`, strictly positive, and smaller than the
first shaping reward from distance 250. -/
theorem shaping_first_tick_witness :
    ((SimulationEngine.create 400 300).getReward "shaping" 0.5 0.1 400 300).1 = 100 ∧
    0 < ((SimulationEngine.create 400 300).getReward "shaping" 0.5 0.1 400 300).1 ∧
    ((SimulationEngine.create 400 300).getReward "shaping" 0.5 0.1 400 300).1
      < (({ SimulationEngine.create 400 300 with agentPos := ⟨50, 150⟩ }
          : SimulationEngine).getReward "shaping" 0.5 0.1 400 300).1 := by
  have h := shaping_first_tick 0.5 0.1 400 300
  have hd : (SimulationEngine.create 400 300).getDistance = 200 := by
    simp only [SimulationEngine.getDistance, SimulationEngine.create]
    norm_num
    have h' := distance_horiz 100 300 150 (by norm_num); norm_num at h'; exact h'
  have hd2 : ({ SimulationEngine.create 400 300 with agentPos := ⟨50, 150⟩ }
      : SimulationEngine).getDistance = 250 := by
    simp only [SimulationEngine.getDistance, SimulationEngine.create]
    norm_num
    have h' := distance_horiz 50 300 150 (by norm_num); norm_num at h'; exact h'
  refine ⟨?_, ?_, ?_⟩
  · rw [h.2.2.1 (SimulationEngine.create 400 300) rfl, hd]; norm_num
  · exact h.2.2.2.1 (SimulationEngine.create 400 300) rfl (by norm_num)
      (by rw [hd]; norm_num)
  · exact h.2.2.2.2 (SimulationEngine.create 400 300) _ rfl rfl (by norm_num)
      (by rw [hd, hd2]; norm_num)

/-! ### Claim C9 -/

/-- Claim C9: at distance exactly equal to `successThreshold`, the policy's
stop check (non-strict `<=`) emits zero velocity and zeroes momentum, while
the engine's success check (strict `<`) does not fire, so `step` returns
`done = false` with the regime reward rather than the terminal `1.0`. -/
theorem threshold_boundary_tick (s : SimulationEngine) (type : String)
    (γ lr w h : ℝ) (phys : Pos → Pos → Pos × Pos) (m : Pos) (cr : ℝ)
    (hb : s.getDistance = s.successThreshold) :
    updateAgent type γ lr w h s.agentPos s.goalPos s.successThreshold
        s.initialDistance m cr = (⟨0, 0⟩, ⟨0, 0⟩) ∧
    (s.step type γ lr w h phys).2.1 = false ∧
    (s.step type γ lr w h phys).1 = (s.getReward type γ lr w h).1 := by
  have hd : distance s.agentPos s.goalPos = s.successThreshold := hb
  have hnot : ¬ ((s.getReward type γ lr w h).2).isSuccess := by
    rw [SimulationEngine.isSuccess, getReward_state s type γ lr w h]
    simp only [SimulationEngine.getDistance]
    simp only [SimulationEngine.getDistance] at hd
    rw [hd]
    exact lt_irrefl _
  refine ⟨?_, ?_, ?_⟩
  · simp only [updateAgent]
    rw [if_pos (le_of_eq hd)]
  · simp only [SimulationEngine.step]
    rw [if_neg hnot]
  · simp only [SimulationEngine.step]
    rw [if_neg hnot]

/-- Witness for C9: an engine whose agent sits exactly 35 px from the goal
(the threshold) stops the policy but does not trigger the success branch. -/
theorem threshold_boundary_tick_witness :
    updateAgent "sparse" 0.9 0.1 400 300
        ({ SimulationEngine.create 400 300 with agentPos := ⟨265, 150⟩ }
          : SimulationEngine).agentPos
        ({ SimulationEngine.create 400 300 with agentPos := ⟨265, 150⟩ }
          : SimulationEngine).goalPos
        ({ SimulationEngine.create 400 300 with agentPos := ⟨265, 150⟩ }
          : SimulationEngine).successThreshold
        ({ SimulationEngine.create 400 300 with agentPos := ⟨265, 150⟩ }
          : SimulationEngine).initialDistance ⟨0, 0⟩ 0 = (⟨0, 0⟩, ⟨0, 0⟩) ∧
    (({ SimulationEngine.create 400 300 with agentPos := ⟨265, 150⟩ }
        : SimulationEngine).step "sparse" 0.9 0.1 400 300 physShift).2.1 = false := by
  have hb : ({ SimulationEngine.create 400 300 with agentPos := ⟨265, 150⟩ }
      : SimulationEngine).getDistance
      = ({ SimulationEngine.create 400 300 with agentPos := ⟨265, 150⟩ }
        : SimulationEngine).successThreshold := by
    have h : distance ⟨265, 150⟩ ⟨300, 150⟩ = 35 := by
      have h := distance_horiz 265 300 150 (by norm_num); norm_num at h; exact h
    simp only [SimulationEngine.getDistance, SimulationEngine.create]
    norm_num [h]
  have h := threshold_boundary_tick
    ({ SimulationEngine.create 400 300 with agentPos := ⟨265, 150⟩ })
    "sparse" 0.9 0.1 400 300 physShift ⟨0, 0⟩ 0 hb
  exact ⟨h.1, h.2.1⟩

/-! ### Vector-length lemmas for the policy -/

lemma unit_div (x y L : ℝ) (hL : L = Real.sqrt (x ^ 2 + y ^ 2)) (h : 0 < L) :
    (x / L) ^ 2 + (y / L) ^ 2 = 1 := by
  have hxy : 0 < x ^ 2 + y ^ 2 := by
    by_contra hc
    push_neg at hc
    rw [hL] at h
    rw [Real.sqrt_eq_zero'.mpr hc] at h
    exact lt_irrefl 0 h
  have hL2 : L ^ 2 = x ^ 2 + y ^ 2 := by rw [hL]; exact Real.sq_sqrt (le_of_lt hxy)
  have hLne : L ≠ 0 := ne_of_gt h
  field_simp
  linarith [hL2]

lemma normalizePos_sqNorm_of_pos (v : Pos) (h : 0 < sqNorm v) :
    sqNorm (normalizePos v) = 1 := by
  have hL : 0 < Real.sqrt (sqNorm v) := Real.sqrt_pos.mpr h
  simp only [normalizePos]
  rw [if_pos hL]
  simp only [sqNorm]
  exact unit_div v.x v.y _ rfl hL

lemma sqNorm_normalizePos (v : Pos) :
    sqNorm (normalizePos v) = 1 ∨ sqNorm (normalizePos v) = 0 := by
  rcases (sqNorm_nonneg v).lt_or_eq with h | h
  · left; exact normalizePos_sqNorm_of_pos v h
  · right
    have hL : Real.sqrt (sqNorm v) = 0 := by rw [← h]; exact Real.sqrt_zero
    simp only [normalizePos]
    rw [if_neg (by rw [hL]; exact lt_irrefl 0)]
    exact h.symm

lemma foldl_pickStep_fst (f : Pos → ℝ) (l : List Pos) (acc : Pos × ℝ) :
    (l.foldl (pickStep f) acc).1 = acc.1 ∨ (l.foldl (pickStep f) acc).1 ∈ l := by
  induction l generalizing acc with
  | nil => left; rfl
  | cons a t ih =>
    simp only [List.foldl_cons]
    rcases ih (pickStep f acc a) with h | h
    · rw [h]
      by_cases hc : f a > acc.2
      · have ha : (pickStep f acc a).1 = a := by simp [pickStep, hc]
        rw [ha]; right; exact List.mem_cons_self a t
      · have ha : (pickStep f acc a).1 = acc.1 := by simp [pickStep, hc]
        rw [ha]; left; rfl
    · right; exact List.mem_cons_of_mem a h

lemma foldl_pickStep_of_le (f : Pos → ℝ) (l : List Pos) (acc : Pos × ℝ)
    (hle : ∀ v ∈ l, f v ≤ acc.2) : l.foldl (pickStep f) acc = acc := by
  induction l with
  | nil => rfl
  | cons a t ih =>
    simp only [List.foldl_cons]
    have h1 : pickStep f acc a = acc := by
      simp [pickStep, not_lt.mpr (hle a (List.mem_cons_self a t))]
    rw [h1]
    exact ih fun v hv => hle v (List.mem_cons_of_mem a hv)

lemma mem_samples_sqNorm_pos (v : Pos) (hv : v ∈ samples) : 0 < sqNorm v := by
  simp only [samples, List.mem_cons, List.not_mem_nil, or_false] at hv
  rcases hv with h | h | h | h | h | h | h | h <;> subst h <;>
    norm_num [sqNorm, sampleDistance]

lemma bestDirectionOf_sqNorm (rewardType : String) (γ lr w h : ℝ) (p g : Pos)
    (θ : ℝ) (initD : Option ℝ) (cr : ℝ) (hd : 0 < distance p g) :
    sqNorm (bestDirectionOf rewardType γ lr w h p g θ initD cr) = 1 := by
  have hgoal : Real.sqrt ((g.x - p.x) ^ 2 + (g.y - p.y) ^ 2) = distance p g := by
    unfold distance; congr 1; ring
  simp only [bestDirectionOf]
  rcases foldl_pickStep_fst (expectedRewardAt rewardType γ lr w h p g θ initD)
      samples ((⟨0, 0⟩ : Pos), cr) with h0 | hmem
  · rw [h0]
    have hz : Real.sqrt (sqNorm (⟨0, 0⟩ : Pos)) = 0 := by
      simp [sqNorm]
    rw [if_neg (by rw [hz]; exact lt_irrefl 0)]
    rw [if_pos (by rw [hgoal]; exact hd)]
    simp only [sqNorm]
    exact unit_div _ _ _ rfl (by rw [hgoal]; exact hd)
  · have hpos := mem_samples_sqNorm_pos _ hmem
    have hL : 0 < Real.sqrt (sqNorm (samples.foldl
        (pickStep (expectedRewardAt rewardType γ lr w h p g θ initD))
        ((⟨0, 0⟩ : Pos), cr)).1) := Real.sqrt_pos.mpr hpos
    rw [if_pos hL]
    simp only [sqNorm]
    exact unit_div _ _ _ rfl hL

lemma sqNorm_finalDir_pos (bd m : Pos) (hb : sqNorm bd = 1)
    (hm : sqNorm m = 1 ∨ sqNorm m = 0) : 0 < sqNorm (finalDir bd m) := by
  rcases (sqNorm_nonneg (finalDir bd m)).lt_or_eq with h | h
  · exact h
  · exfalso
    have hz := (sqNorm_eq_zero_iff _).mp h.symm
    simp only [finalDir] at hz
    have hx : bd.x * (1 - 0.3) + m.x * 0.3 = 0 := congrArg Pos.x hz
    have hy : bd.y * (1 - 0.3) + m.y * 0.3 = 0 := congrArg Pos.y hz
    have hmx : m.x = -(7 / 3) * bd.x := by norm_num at hx ⊢; linarith
    have hmy : m.y = -(7 / 3) * bd.y := by norm_num at hy ⊢; linarith
    have hsq : sqNorm m = 49 / 9 * sqNorm bd := by
      simp only [sqNorm]; rw [hmx, hmy]; ring
    rw [hb] at hsq
    rcases hm with h1 | h1 <;> rw [h1] at hsq <;> norm_num at hsq

lemma updateAgent_velocity_sqNorm (type : String) (γ lr w h : ℝ) (p g : Pos)
    (θ : ℝ) (initD : Option ℝ) (m : Pos) (cr : ℝ)
    (hθ : 0 ≤ θ) (hgt : θ < distance p g) :
    Real.sqrt (sqNorm (updateAgent type γ lr w h p g θ initD m cr).1)
      = min 4 (max 1.5 (distance p g * 0.015)) := by
  have hd0 : 0 < distance p g := lt_of_le_of_lt hθ hgt
  simp only [updateAgent]
  rw [if_neg (not_le.mpr hgt)]
  set bd2 := bestDirectionOf type γ lr w h p g θ initD cr with hbd
  set m2 := normalizePos (blendMomentum m bd2) with hm2def
  set f2 := normalizePos (finalDir bd2 m2) with hf2def
  set S := min 4 (max 1.5 (distance p g * 0.015)) with hS
  have hb : sqNorm bd2 = 1 := bestDirectionOf_sqNorm type γ lr w h p g θ initD cr hd0
  have hmm : sqNorm m2 = 1 ∨ sqNorm m2 = 0 := sqNorm_normalizePos _
  have hf : 0 < sqNorm (finalDir bd2 m2) := sqNorm_finalDir_pos _ _ hb hmm
  have hf1 : sqNorm f2 = 1 := normalizePos_sqNorm_of_pos _ hf
  have hSnn : 0 ≤ S := by
    rw [hS]
    have h15 : (1.5 : ℝ) ≤ max 1.5 (distance p g * 0.015) := le_max_left _ _
    exact le_min (by norm_num) (by linarith)
  have hcalc : sqNorm ⟨f2.x * S, f2.y * S⟩ = S ^ 2 := by
    have h' : f2.x ^ 2 + f2.y ^ 2 = 1 := by simpa [sqNorm] using hf1
    simp only [sqNorm]
    calc (f2.x * S) ^ 2 + (f2.y * S) ^ 2 = (f2.x ^ 2 + f2.y ^ 2) * S ^ 2 := by ring
      _ = S ^ 2 := by rw [h']; ring
  rw [hcalc, Real.sqrt_sq hSnn]

/-! ### Claim C5 -/

/-- Claim C5: whenever the distance to the goal exceeds `successThreshold`
(taken nonnegative, as the engine's `35`), the policy emits a velocity whose
magnitude is exactly `min(4, max(1.5, distance·0.015))` — hence at most `4.0`
and at least `1.5` — and whenever the distance is within the threshold the
emitted velocity is exactly zero. -/
theorem policy_speed_clamp (type : String) (γ lr w h : ℝ) (p g : Pos) (θ : ℝ)
    (initD : Option ℝ) (m : Pos) (cr : ℝ) (hθ : 0 ≤ θ) :
    (distance p g ≤ θ →
      (updateAgent type γ lr w h p g θ initD m cr).1 = ⟨0, 0⟩) ∧
    (θ < distance p g →
      Real.sqrt (sqNorm (updateAgent type γ lr w h p g θ initD m cr).1)
          = min 4 (max 1.5 (distance p g * 0.015)) ∧
      Real.sqrt (sqNorm (updateAgent type γ lr w h p g θ initD m cr).1) ≤ 4 ∧
      1.5 ≤ Real.sqrt (sqNorm (updateAgent type γ lr w h p g θ initD m cr).1)) := by
  constructor
  · intro hle
    simp only [updateAgent]
    rw [if_pos hle]
  · intro hgt
    have hmag := updateAgent_velocity_sqNorm type γ lr w h p g θ initD m cr hθ hgt
    refine ⟨hmag, ?_, ?_⟩
    · rw [hmag]; exact min_le_left _ _
    · rw [hmag]
      exact le_min (by norm_num) (le_max_left _ _)

/-- Witness for C5: at distance 200 (so `200·0.015 = 3` within the clamp) the
emitted speed is exactly `3`; at distance equal to the threshold the emitted
velocity is zero. -/
theorem policy_speed_clamp_witness :
    Real.sqrt (sqNorm ((updateAgent "sparse" 0.9 0.1 400 300 ⟨100, 150⟩
        ⟨300, 150⟩ 35 none ⟨0, 0⟩ 0).1)) = 3 ∧
    (updateAgent "sparse" 0.9 0.1 400 300 ⟨265, 150⟩ ⟨300, 150⟩ 35 none
        ⟨0, 0⟩ 0).1 = ⟨0, 0⟩ := by
  have h200 : distance ⟨100, 150⟩ ⟨300, 150⟩ = 200 := by
    have h := distance_horiz 100 300 150 (by norm_num); norm_num at h; exact h
  have h35 : distance ⟨265, 150⟩ ⟨300, 150⟩ = 35 := by
    have h := distance_horiz 265 300 150 (by norm_num); norm_num at h; exact h
  constructor
  · have h := ((policy_speed_clamp "sparse" 0.9 0.1 400 300 ⟨100, 150⟩
      ⟨300, 150⟩ 35 none ⟨0, 0⟩ 0 (by norm_num)).2 (by rw [h200]; norm_num)).1
    rw [h, h200]
    rw [show max 1.5 ((200 : ℝ) * 0.015) = 3 by norm_num [max_eq_right]]
    norm_num [min_eq_right]
  · exact (policy_speed_clamp "sparse" 0.9 0.1 400 300 ⟨265, 150⟩ ⟨300, 150⟩
      35 none ⟨0, 0⟩ 0 (by norm_num)).1 (le_of_eq h35)

/-! ### Claim C8 -/

/-- Claim C8: for any regime identifier other than the four known ones, the
engine's `getReward` returns `0` without failing, every sampled candidate's
expected reward stays `0` so the policy's selection falls back to the
straight-line direction toward the goal, and the emitted velocity is not
zero (the agent does not stay still). -/
theorem unknown_regime_fallback (type : String) (γ lr w h : ℝ) (p g : Pos)
    (θ : ℝ) (initD : Option ℝ) (m : Pos)
    (hns : type ≠ "sparse") (hnh : type ≠ "shaping") (hnp : type ≠ "prm")
    (hnm : type ≠ "semantic") (hθ : 0 ≤ θ) (hgt : θ < distance p g) :
    (∀ (s : SimulationEngine), (s.getReward type γ lr w h).1 = 0) ∧
    bestDirectionOf type γ lr w h p g θ initD 0
      = ⟨(g.x - p.x) / distance p g, (g.y - p.y) / distance p g⟩ ∧
    (updateAgent type γ lr w h p g θ initD m 0).1 ≠ ⟨0, 0⟩ := by
  have hd0 : 0 < distance p g := lt_of_le_of_lt hθ hgt
  have hgoal : Real.sqrt ((g.x - p.x) ^ 2 + (g.y - p.y) ^ 2) = distance p g := by
    unfold distance; congr 1; ring
  refine ⟨?_, ?_, ?_⟩
  · intro s
    simp [SimulationEngine.getReward, hns, hnh, hnp, hnm]
  · have hzero : ∀ v ∈ samples,
        expectedRewardAt type γ lr w h p g θ initD v ≤ ((⟨0, 0⟩ : Pos), (0 : ℝ)).2 := by
      intro v hv
      simp only [expectedRewardAt]
      rw [if_neg hns, if_neg hnh, if_neg hnp, if_neg hnm]
    simp only [bestDirectionOf]
    rw [foldl_pickStep_of_le _ _ _ hzero]
    have hz : Real.sqrt (sqNorm (⟨0, 0⟩ : Pos)) = 0 := by simp [sqNorm]
    rw [if_neg (by rw [hz]; exact lt_irrefl 0)]
    rw [if_pos (by rw [hgoal]; exact hd0)]
    rw [hgoal]
  · intro hv
    have hmag := updateAgent_velocity_sqNorm type γ lr w h p g θ initD m 0 hθ hgt
    rw [hv] at hmag
    have hz : Real.sqrt (sqNorm (⟨0, 0⟩ : Pos)) = 0 := by simp [sqNorm]
    rw [hz] at hmag
    have h15 : (1.5 : ℝ) ≤ min 4 (max 1.5 (distance p g * 0.015)) :=
      le_min (by norm_num) (le_max_left _ _)
    rw [← hmag] at h15
    norm_num at h15

/-- Witness for C8: the unrecognised regime identifier `"bogus"` yields
reward `0` on a fresh engine, the goal-seeking fallback direction from
`(100,150)` toward the goal `(300,150)`, and a nonzero emitted velocity. -/
theorem unknown_regime_fallback_witness :
    ((SimulationEngine.create 400 300).getReward "bogus" 0.9 0.1 400 300).1 = 0 ∧
    bestDirectionOf "bogus" 0.9 0.1 400 300 ⟨100, 150⟩ ⟨300, 150⟩ 35 none 0
      = ⟨(300 - 100) / distance ⟨100, 150⟩ ⟨300, 150⟩,
         (150 - 150) / distance ⟨100, 150⟩ ⟨300, 150⟩⟩ ∧
    (updateAgent "bogus" 0.9 0.1 400 300 ⟨100, 150⟩ ⟨300, 150⟩ 35 none
        ⟨0, 0⟩ 0).1 ≠ ⟨0, 0⟩ := by
  have h200 : distance ⟨100, 150⟩ ⟨300, 150⟩ = 200 := by
    have h := distance_horiz 100 300 150 (by norm_num); norm_num at h; exact h
  have h := unknown_regime_fallback "bogus" 0.9 0.1 400 300 ⟨100, 150⟩
    ⟨300, 150⟩ 35 none ⟨0, 0⟩ (by decide) (by decide) (by decide) (by decide)
    (by norm_num) (by rw [h200]; norm_num)
  exact ⟨h.1 (SimulationEngine.create 400 300), h.2.1, h.2.2⟩

/-! ### Claim C4 -/

/-- Counterexample for C4 as stated: after one non-success `step` tick from a
concrete state at pre-move distance 200 with velocity command `(6,0)`, the
stored `previousDistance` is the pre-move distance `200` — set during the
reward evaluation at the start of the tick — and differs from the freshly
measured post-advance distance `194`, refuting the claim that
`previousDistance` is updated last to the post-advance distance. -/
theorem step_tick_ordering_counterexample :
    c4Res.2.2.previousDistance = some 200 ∧
    distance c4Res.2.2.agentPos c4Res.2.2.goalPos = 194 ∧
    c4Res.2.2.previousDistance
      ≠ some (distance c4Res.2.2.agentPos c4Res.2.2.goalPos) := by
  have hgoalx : c4State.goalPos.x = 300 := by
    simp [c4State, SimulationEngine.create]; norm_num
  have hgoaly : c4State.goalPos.y = 150 := by
    simp [c4State, SimulationEngine.create]; norm_num
  have hgoal : c4State.goalPos = ⟨300, 150⟩ := Pos.ext hgoalx hgoaly
  have hd : c4State.getDistance = 200 := by
    simp only [SimulationEngine.getDistance, hgoal]
    have h : c4State.agentPos = ⟨100, 150⟩ := rfl
    rw [h]
    have h' := distance_horiz 100 300 150 (by norm_num); norm_num at h'; exact h'
  have hθ : c4State.successThreshold = 35 := rfl
  have hnot : ¬ ((c4State.getReward "sparse" 0.9 0.1 400 300).2).isSuccess := by
    rw [SimulationEngine.isSuccess, getReward_state]
    show ¬ c4State.getDistance < c4State.successThreshold
    rw [hd, hθ]
    norm_num
  have hstep : c4Res.2.2.previousDistance = some c4State.getDistance ∧
      c4Res.2.2.agentPos = ⟨106, 150⟩ ∧ c4Res.2.2.goalPos = c4State.goalPos := by
    simp only [c4Res, SimulationEngine.step]
    rw [if_neg hnot]
    refine ⟨?_, ?_, ?_⟩
    · simp [getReward_state]
    · simp only [getReward_state]
      show (physShift c4State.agentPos c4State.agentVelocity).1 = ⟨106, 150⟩
      simp [physShift, c4State]
      norm_num
    · simp [getReward_state]
  have hpost : distance c4Res.2.2.agentPos c4Res.2.2.goalPos = 194 := by
    rw [hstep.2.1, hstep.2.2, hgoal]
    have h' := distance_horiz 106 300 150 (by norm_num); norm_num at h'; exact h'
  refine ⟨by rw [hstep.1, hd], hpost, ?_⟩
  rw [hstep.1, hd, hpost]
  intro hcontra
  have : (200 : ℝ) = 194 := Option.some.inj hcontra
  norm_num at this

/-- Claim C4 (amended): in a non-success tick, `step` performs its sub-steps
in the source's order — the returned reward is evaluated at the pre-move
state; the post-advance position is appended to the history after the
physics advance, evicting the oldest entry beyond capacity; and
`previousDistance` is set during the reward evaluation at the start of the
tick to the pre-move distance (the post-advance distance of the previous
tick), not after the physics advance. -/
theorem step_tick_ordering (s : SimulationEngine) (type : String)
    (γ lr w h : ℝ) (phys : Pos → Pos → Pos × Pos)
    (hns : ¬ s.getDistance < s.successThreshold) :
    (s.step type γ lr w h phys).1 = (s.getReward type γ lr w h).1 ∧
    (s.step type γ lr w h phys).2.1 = false ∧
    (s.step type γ lr w h phys).2.2.agentPos = (phys s.agentPos s.agentVelocity).1 ∧
    (s.step type γ lr w h phys).2.2.positionHistory
      = (if s.maxHistoryLength
            < (s.positionHistory ++ [(phys s.agentPos s.agentVelocity).1]).length
         then (s.positionHistory ++ [(phys s.agentPos s.agentVelocity).1]).drop 1
         else s.positionHistory ++ [(phys s.agentPos s.agentVelocity).1]) ∧
    (s.step type γ lr w h phys).2.2.previousDistance = some s.getDistance := by
  have hnot : ¬ ((s.getReward type γ lr w h).2).isSuccess := by
    rw [SimulationEngine.isSuccess, getReward_state]
    exact hns
  simp only [SimulationEngine.step]
  rw [if_neg hnot]
  refine ⟨rfl, rfl, ?_, ?_, ?_⟩
  · simp [getReward_state]
  · simp [getReward_state]
  · simp [getReward_state]

/-- Witness for the amended C4: the concrete tick of the counterexample state
satisfies the proved ordering facts. -/
theorem step_tick_ordering_witness :
    c4Res.1 = (c4State.getReward "sparse" 0.9 0.1 400 300).1 ∧
    c4Res.2.1 = false ∧
    c4Res.2.2.previousDistance = some c4State.getDistance := by
  have hgoalx : c4State.goalPos.x = 300 := by
    simp [c4State, SimulationEngine.create]; norm_num
  have hgoaly : c4State.goalPos.y = 150 := by
    simp [c4State, SimulationEngine.create]; norm_num
  have hgoal : c4State.goalPos = ⟨300, 150⟩ := Pos.ext hgoalx hgoaly
  have hd : c4State.getDistance = 200 := by
    simp only [SimulationEngine.getDistance, hgoal]
    have h : c4State.agentPos = ⟨100, 150⟩ := rfl
    rw [h]
    have h' := distance_horiz 100 300 150 (by norm_num); norm_num at h'; exact h'
  have hns : ¬ c4State.getDistance < c4State.successThreshold := by
    rw [hd]
    show ¬ (200 : ℝ) < 35
    norm_num
  have h := step_tick_ordering c4State "sparse" 0.9 0.1 400 300 physShift hns
  exact ⟨h.1, h.2.1, h.2.2.2.2⟩
